import Mathlib

/-!
Verification development for the dog-nutrition core: a shallow embedding of
`src/dog_nutrition` (foods_db.py, search.py, toxicity.py, energy.py, nrc.py,
optimizer.py) together with proofs of the specified properties.

Conventions of the embedding:
* Python strings are Lean `String`s; all character-level work is done on
  `String.data` (`List Char`) with structural recursion so that every
  definition evaluates by kernel reduction.
* Python floats are modelled as `ℚ` in the optimizer (exact arithmetic) and
  as `ℝ` in the energy/requirement calculator (where a real exponent 0.75
  appears).
* The SQLite tables `foods` and `food_aliases` are modelled as lists of rows;
  a `SELECT ... WHERE ... ORDER BY ... LIMIT ?` is filter + stable sort +
  truncation, with `lower(x) LIKE '%t%'` modelled as substring containment
  (no query in scope contains a `%`/`_` wildcard).
* Fallible Python functions (those that can raise `ValueError`) return
  `Except String`.
-/

namespace DogNutrition

/-! ### Character/string helpers mirroring the Python string primitives -/

/-- Python whitespace characters recognised by `str.strip` (ASCII subset). -/
def isPySpace (c : Char) : Bool :=
  c == ' ' || c == '\t' || c == '\n' || c == '\r' || c == '\x0b' || c == '\x0c'

/-- Python `str.lower` on the character list (ASCII case folding; CJK
characters are fixed points, as in the data handled by the program). -/
def pyLowerData (s : String) : List Char :=
  s.data.map Char.toLower

/-- Python `needle in hay` on character lists (substring containment). -/
def containsSub : List Char → List Char → Bool
  | needle, [] => needle.isEmpty
  | needle, c :: rest => needle.isPrefixOf (c :: rest) || containsSub needle rest

/-- Python `needle in hay` on strings, case-sensitive. -/
def pyIn (needle hay : String) : Bool :=
  containsSub needle.data hay.data

/-- Python `str.strip` on a character list. -/
def stripData (l : List Char) : List Char :=
  ((l.dropWhile isPySpace).reverse.dropWhile isPySpace).reverse

/-- Python `s.strip()`. -/
def pyStrip (s : String) : String :=
  ⟨stripData s.data⟩

/-- Python `s.strip().lower()`, the query normalisation used throughout. -/
def pyNorm (s : String) : String :=
  ⟨(stripData s.data).map Char.toLower⟩

/-- Split a character list at every character satisfying `sep`, keeping empty
pieces (they are filtered out by the tokenizers, matching `re.split` on a
`[...]+` class following `strip`). `cur` is the current piece, reversed. -/
def splitChars (sep : Char → Bool) : List Char → List Char → List (List Char)
  | cur, [] => [cur.reverse]
  | cur, c :: rest =>
    if sep c then cur.reverse :: splitChars sep [] rest
    else splitChars sep (c :: cur) rest

/-! ### Stable insertion sort (models Python `list.sort(key=...)` and SQL
`ORDER BY`): an element is inserted before the first element it compares
`le` to, so ties keep their original relative order. -/

def insertLe {α : Type} (le : α → α → Bool) (a : α) : List α → List α
  | [] => [a]
  | b :: l => if le a b then a :: b :: l else b :: insertLe le a l

def sortLe {α : Type} (le : α → α → Bool) : List α → List α
  | [] => []
  | a :: l => insertLe le a (sortLe le l)

/-- Ordered-dict update, Python semantics: an existing key keeps its position
and gets the new value, a new key is appended at the end. -/
def updAssoc {κ β : Type} [BEq κ] : List (κ × β) → κ → β → List (κ × β)
  | [], k, v => [(k, v)]
  | (k', v') :: rest, k, v =>
    if k' == k then (k, v) :: rest else (k', v') :: updAssoc rest k v

/-- Python `d.get(k, dflt)` on an association list. -/
def lookupD {κ β : Type} [BEq κ] (l : List (κ × β)) (k : κ) (dflt : β) : β :=
  (l.lookup k).getD dflt

/-- `List.foldlM` specialised to `Except`, written by structural recursion so
that it evaluates by kernel reduction. -/
def exceptFold {ε σ α : Type} (f : σ → α → Except ε σ) : σ → List α → Except ε σ
  | s, [] => .ok s
  | s, a :: l => match f s a with
    | .error e => .error e
    | .ok s' => exceptFold f s' l

instance {ε α : Type} [DecidableEq ε] [DecidableEq α] :
    DecidableEq (Except ε α) := fun a b =>
  match a, b with
  | .error e, .error e' =>
    if h : e = e' then .isTrue (by rw [h])
    else .isFalse (fun hh => h (Except.error.inj hh))
  | .ok x, .ok y =>
    if h : x = y then .isTrue (by rw [h])
    else .isFalse (fun hh => h (Except.ok.inj hh))
  | .error _, .ok _ => .isFalse (fun hh => Except.noConfusion hh)
  | .ok _, .error _ => .isFalse (fun hh => Except.noConfusion hh)

/-- Python `l[:k]` for an `Int` bound `k` (a negative bound drops `-k`
elements from the end). -/
def pySlice {α : Type} (l : List α) (k : Int) : List α :=
  if 0 ≤ k then l.take k.toNat else l.take (l.length - (-k).toNat)

/-- SQLite `LIMIT k`: a negative limit means "no limit". -/
def sqlLimit {α : Type} (l : List α) (k : Int) : List α :=
  if k < 0 then l else l.take k.toNat

/-! ### toxicity.py -/

namespace Toxicity

/-- toxicity.py `TOXIC_KEYWORDS` (the full multilingual set; used by the
optimizer). -/
def TOXIC_KEYWORDS : List String :=
  ["onion", "garlic", "chive", "leek", "chocolate", "cocoa", "grape", "raisin",
   "xylitol", "alcohol", "macadamia", "avocado pit", "coffee", "tea leaf",
   "洋葱", "大蒜", "韭菜", "巧克力", "可可", "葡萄", "葡萄干", "木糖醇", "酒精", "夏威夷果"]

/-- toxicity.py `is_toxic_food_name`: strip + lowercase the name, an empty
name is never toxic, otherwise test containment of any keyword. -/
def is_toxic_food_name (name : String) : Bool :=
  let lowered := (stripData name.data).map Char.toLower
  if lowered.isEmpty then false
  else TOXIC_KEYWORDS.any (fun k => containsSub k.data lowered)

end Toxicity

/-! ### foods_db.py -/

namespace FoodsDb

/-- foods_db.py `FoodRecord` (fields of a `foods` row surfaced by search). -/
structure FoodRecord where
  id : Nat
  name : String
  kcal_per_100g : Option ℚ
  source : String
  fdc_id : Option Nat
  deriving DecidableEq

/-- A row of the `foods` table (columns used by the search queries). -/
structure FoodRow where
  id : Nat
  name : String
  kcal_per_100g : Option ℚ
  source : String
  fdc_id : Option Nat
  deriving DecidableEq

/-- A row of the `food_aliases` table. -/
structure AliasRow where
  id : Nat
  food_id : Nat
  lang : String
  «alias» : String
  weight : Int
  deriving DecidableEq

/-- foods_db.py `_TOXIC_KEYWORDS` — note this module-level list is smaller
than toxicity.py's `TOXIC_KEYWORDS`. -/
def _TOXIC_KEYWORDS : List String :=
  ["onion", "chocolate", "grape", "xylitol", "葡萄", "木糖醇", "洋葱", "巧克力"]

/-- foods_db.py `is_toxic_food_name` (lowercase, no strip, the module's own
keyword list). -/
def is_toxic_food_name (name : String) : Bool :=
  _TOXIC_KEYWORDS.any (fun k => containsSub k.data (pyLowerData name))

/-- The unsafe-ingredient keywords the specification claims are covered "at
minimum" by the search-side filter (taken from the spec's words, for
comparison with `_TOXIC_KEYWORDS`). -/
def specClaimedToxicMinimum : List String :=
  ["onion", "garlic", "chocolate", "cocoa", "grape", "raisin", "xylitol",
   "alcohol", "macadamia"]

/-- foods_db.py `_STOPWORDS`. -/
def _STOPWORDS : List String := ["and", "or", "&", "the"]

/-- foods_db.py `_MAX_QUERY_TOKENS`. -/
def _MAX_QUERY_TOKENS : Nat := 6

/-- The character class of `_TOKEN_SPLIT_RE`, `[\s,;，；、]+`. -/
def isTokenSep (c : Char) : Bool :=
  isPySpace c || c == ',' || c == ';' || c == '，' || c == '；' || c == '、'

/-- foods_db.py `_tokenize_query`: lowercase, split on the separator class,
drop empties and stopwords, cap at `_MAX_QUERY_TOKENS`. -/
def _tokenize_query (query : String) : List String :=
  (((splitChars isTokenSep [] (pyLowerData query)).map
      (fun l => (⟨l⟩ : String))).filter
    (fun t => !(t == "") && !(_STOPWORDS.contains t))).take _MAX_QUERY_TOKENS

/-- foods_db.py `_rows_to_records`: drop toxic names, optionally drop rows
without a kcal value, convert the rest. -/
def _rows_to_records : List FoodRow → Bool → List FoodRecord
  | [], _ => []
  | r :: rest, require_kcal =>
    if is_toxic_food_name r.name then _rows_to_records rest require_kcal
    else if require_kcal && r.kcal_per_100g.isNone then
      _rows_to_records rest require_kcal
    else ⟨r.id, r.name, r.kcal_per_100g, r.source, r.fdc_id⟩ ::
      _rows_to_records rest require_kcal

/-- The `WHERE` clause of the two `search_foods` queries:
`lower(name) LIKE '%t%'` joined with `AND` (conjunctive) or `OR`. -/
def likeTokens (tokens : List String) (conj : Bool) (r : FoodRow) : Bool :=
  if conj then tokens.all (fun t => containsSub t.data (pyLowerData r.name))
  else tokens.any (fun t => containsSub t.data (pyLowerData r.name))

/-- `ORDER BY name ASC` (SQLite BINARY collation = codepoint order). -/
def rowNameLe (a b : FoodRow) : Bool :=
  decide (a.name.data ≤ b.name.data)

/-- A `SELECT ... FROM foods WHERE pred ORDER BY name ASC LIMIT lim`. -/
def selectRows (foods : List FoodRow) (pred : FoodRow → Bool) (lim : Nat) :
    List FoodRow :=
  (sortLe rowNameLe (foods.filter pred)).take lim

/-- Records produced by the conjunctive (all-tokens) phase of `search_foods`. -/
def conjunctiveRecords (foods : List FoodRow) (query : String) (limit : Int)
    (require_kcal : Bool) : List FoodRecord :=
  _rows_to_records
    (selectRows foods (likeTokens (_tokenize_query (pyNorm query)) true) limit.toNat)
    require_kcal

/-- Records produced by the disjunctive (any-token) fallback of
`search_foods`. -/
def disjunctiveRecords (foods : List FoodRow) (query : String) (limit : Int)
    (require_kcal : Bool) : List FoodRecord :=
  _rows_to_records
    (selectRows foods (likeTokens (_tokenize_query (pyNorm query)) false) limit.toNat)
    require_kcal

/-- foods_db.py `search_foods`: validate the limit, normalise the query,
tokenize, run the conjunctive query, and fall back to the disjunctive query
when the conjunctive phase produced no records. -/
def search_foods (foods : List FoodRow) (query : String) (limit : Int)
    (require_kcal : Bool) : Except String (List FoodRecord) :=
  if limit ≤ 0 then .error "limit must be > 0"
  else if pyNorm query == "" then .ok []
  else if (_tokenize_query (pyNorm query)).isEmpty then .ok []
  else if !(conjunctiveRecords foods query limit require_kcal).isEmpty then
    .ok (conjunctiveRecords foods query limit require_kcal)
  else .ok (disjunctiveRecords foods query limit require_kcal)

/-- `ORDER BY a.weight DESC, a.alias ASC, f.name ASC` on joined
(alias, food) pairs. -/
def aliasPairLe (a b : AliasRow × FoodRow) : Bool :=
  decide (b.1.weight < a.1.weight) ||
    (a.1.weight == b.1.weight &&
      (decide (a.1.«alias».data < b.1.«alias».data) ||
        (a.1.«alias» == b.1.«alias» && decide (a.2.name.data ≤ b.2.name.data))))

/-- foods_db.py `search_foods_by_alias`: join `food_aliases` with `foods` on
`lang` and `lower(alias) LIKE '%query%'`, order by weight descending then
alias then name, truncate, convert. -/
def search_foods_by_alias (foods : List FoodRow) (aliases : List AliasRow)
    (query lang : String) (limit : Int) (require_kcal : Bool) :
    List FoodRecord :=
  let nq := pyNorm query
  if nq == "" then []
  else
    let joined := aliases.flatMap (fun a =>
      if a.lang == pyNorm lang && containsSub nq.data (pyLowerData a.«alias») then
        (foods.filter (fun f => f.id == a.food_id)).map (fun f => (a, f))
      else [])
    _rows_to_records ((sqlLimit (sortLe aliasPairLe joined) limit).map (·.2))
      require_kcal

/-- Keep first occurrence of each non-empty string (the dedup loop at the end
of foods_db.py `expand_query`); `seen` accumulates already-emitted items. -/
def dedupeNonempty (seen : List String) : List String → List String
  | [] => []
  | s :: rest =>
    if s == "" || seen.contains s then dedupeNonempty seen rest
    else s :: dedupeNonempty (s :: seen) rest

/-- The egg-token test of foods_db.py `expand_query` (its fourth branch) and
`_cn_intent_weights`. -/
def eggTokenPresent (s : String) : Bool :=
  ["鸡蛋", "蛋白", "蛋黄", "全蛋"].any (fun t => pyIn t s)

/-- foods_db.py `expand_query`. `seed` models the mapping loaded by
`_load_seed_alias_map` from `data/aliases/zh_seed.csv` (an optional external
data file, absent from the sources; `{}` when the file is missing). -/
def expand_query (seed : List (String × List String)) (query : String) :
    List String :=
  let nq := pyNorm query
  dedupeNonempty [] ([nq] ++
    (if pyIn "鸡胸肉" query then ["chicken breast", "chicken", "breast"]
     else if pyIn "鸡肉" query then ["chicken", "chicken drumstick", "chicken breast"]
     else if pyStrip query == "鸡" then ["chicken", "chicken breast", "chicken drumstick"]
     else if eggTokenPresent query then ["egg", "whole egg", "egg yolk", "egg white"]
     else []) ++
    ((seed.lookup nq).getD []))

end FoodsDb

namespace FoodsDb

/-- foods_db.py `_cn_intent_weights`: `(egg_score, chicken_score,
breast_score)` computed from the stripped query and the lowercased food
name, with the −2 penalty for chicken-but-not-egg names on egg queries. -/
def _cn_intent_weights (query name : String) : Int × Int × Int :=
  let q := pyStrip query
  let n := pyLowerData name
  let egg_query := ["鸡蛋", "蛋白", "蛋黄", "全蛋"].any
    (fun t => containsSub t.data q.data)
  let breast_query := containsSub "鸡胸肉".data q.data
  let chicken_query := q == "鸡" || containsSub "鸡肉".data q.data || breast_query
  let egg_score : Int :=
    if containsSub "egg".data n then (if egg_query then 2 else 0) else 0
  let chicken_score : Int :=
    if containsSub "chicken".data n then (if chicken_query then 2 else 0) else 0
  let breast_score : Int :=
    if containsSub "breast".data n then (if breast_query then 2 else 0) else 0
  let chicken_score :=
    if egg_query && containsSub "chicken".data n && !(containsSub "egg".data n)
    then chicken_score - 2 else chicken_score
  (egg_score, chicken_score, breast_score)

/-- A value of the `merged` dict of `search_foods_cn`: the Python tuple
`(tier, priority, record)` (`(0, 10_000, record)` for alias hits,
`(1, -priority, record)` for expansion hits). -/
abbrev CnEntry : Type := Int × Int × FoodRecord

/-- The sort key used by `search_foods_cn`:
`(tier, -egg, -breast, -chicken, priority, name.lower())`, compared
lexicographically. -/
def cnKey (query : String) (e : CnEntry) :
    Lex (Int × Lex (Int × Lex (Int × Lex (Int × Lex (Int × List Char))))) :=
  let w := _cn_intent_weights query e.2.2.name
  toLex (e.1, toLex (-w.1, toLex (-w.2.2, toLex (-w.2.1,
    toLex (e.2.1, pyLowerData e.2.2.name)))))

/-- The comparator handed to the final stable sort of `search_foods_cn`. -/
def cnLe (query : String) (a b : CnEntry) : Bool :=
  decide (cnKey query a ≤ cnKey query b)

/-- The Python comparison `rank < existing` for `rank = (1, prio, record)`:
tuples compare lexicographically, and the third components are equal
whenever the first two are (both records come from the same primary-keyed
`foods` row), so only the two integers decide. -/
def rankLtB (prio : Int) (ex : CnEntry) : Bool :=
  decide ((1 : Int) < ex.1) || ((1 : Int) == ex.1 && decide (prio < ex.2.1))

/-- Python `existing is None or rank < existing` for the merge loop. -/
def cnShouldUpd (prio : Int) : Option CnEntry → Bool
  | none => true
  | some ex => rankLtB prio ex

/-- One candidate term of the expansion loop of `search_foods_cn`: search for
the term and merge each resulting record under the best rank it achieved. -/
def cnStep (foods : List FoodRow) (limit : Int) (require_kcal : Bool)
    (merged : List (Nat × CnEntry)) (candidate : String) :
    Except String (List (Nat × CnEntry)) :=
  match search_foods foods candidate limit require_kcal with
  | .error e => .error e
  | .ok recs => .ok (recs.foldl (fun m r =>
      let prio : Int := -(max 1 (candidate.length : Int))
      if cnShouldUpd prio (m.lookup r.id) then
        updAssoc m r.id ((1 : Int), prio, r)
      else m)
      merged)

/-- The `merged` dict of `search_foods_cn` after both retrieval channels, as
an insertion-ordered association list (`Except` propagates the `ValueError`
that `search_foods` raises on a non-positive limit). -/
def cnMerged (foods : List FoodRow) (aliases : List AliasRow)
    (seed : List (String × List String)) (query : String) (limit : Int)
    (require_kcal : Bool) : Except String (List (Nat × CnEntry)) :=
  exceptFold (cnStep foods limit require_kcal)
    ((search_foods_by_alias foods aliases query "zh" limit require_kcal).foldl
      (fun m r => updAssoc m r.id ((0 : Int), (10000 : Int), r)) [])
    (expand_query seed query)

/-- The `ranked` list of `search_foods_cn` after the stable sort (empty when
the merge raised, a case `search_foods_cn` propagates instead). -/
def cnRanked (foods : List FoodRow) (aliases : List AliasRow)
    (seed : List (String × List String)) (query : String) (limit : Int)
    (require_kcal : Bool) : List CnEntry :=
  match cnMerged foods aliases seed query limit require_kcal with
  | .error _ => []
  | .ok merged => sortLe (cnLe query) (merged.map (·.2))

/-- foods_db.py `search_foods_cn`: alias channel first (tier 0), then one
`search_foods` call per expansion term (tier 1, priority by term length),
stable-sorted by `cnKey` and truncated to `limit`. -/
def search_foods_cn (foods : List FoodRow) (aliases : List AliasRow)
    (seed : List (String × List String)) (query : String) (limit : Int)
    (require_kcal : Bool) : Except String (List FoodRecord) :=
  match cnMerged foods aliases seed query limit require_kcal with
  | .error e => .error e
  | .ok merged =>
    .ok ((pySlice (sortLe (cnLe query) (merged.map (·.2))) limit).map (·.2.2))

end FoodsDb

/-! ### search.py -/

namespace Search

/-- search.py `_STOPWORDS` (note the extra `"whole"`). -/
def _STOPWORDS : List String := ["and", "or", "&", "the", "whole"]

/-- search.py `_CHICKEN_INTENT_TOKENS`. -/
def _CHICKEN_INTENT_TOKENS : List String := ["鸡胸", "鸡肉", "鸡腿", "鸡翅"]

/-- search.py `_EGG_INTENT_TOKENS` (includes the bare `"蛋"`). -/
def _EGG_INTENT_TOKENS : List String := ["蛋", "蛋黄", "蛋白", "全蛋", "鸡蛋"]

/-- The character class of `_TERM_SPLIT_RE`, `[\s,;，；、|]+` (the token
separator class plus the pipe). -/
def isTermSep (c : Char) : Bool :=
  FoodsDb.isTokenSep c || c == '|'

/-- search.py `has_egg_intent`, computed on the normalised query. -/
def hasEggIntent (q : String) : Bool :=
  _EGG_INTENT_TOKENS.any (fun t => containsSub t.data q.data)

/-- search.py `has_chicken_intent`, computed on the normalised query. -/
def hasChickenIntent (q : String) : Bool :=
  q == "鸡" || _CHICKEN_INTENT_TOKENS.any (fun t => containsSub t.data q.data)

/-- search.py `_term_tokens`: split every term on the separator class, drop
empties and stopwords (no cap). -/
def _term_tokens (terms : List String) : List String :=
  terms.flatMap (fun term =>
    ((splitChars isTermSep [] (pyLowerData term)).map
        (fun l => (⟨l⟩ : String))).filter
      (fun t => !(t == "") && !(_STOPWORDS.contains t)))

/-- The alias lookup loop of search.py `expand_query`: aliases sorted by key
length descending (stable), appending the expansion terms of every alias
found inside the query, equal to it, or inside the space-free query. -/
def aliasExpansionTerms (seed : List (String × List String)) (q : String) :
    List String :=
  (sortLe (fun a b => decide (b.length ≤ a.length)) (seed.map (·.1))).foldl
    (fun acc k =>
      let kl : List Char := pyLowerData k
      if containsSub kl q.data || q.data == kl ||
          containsSub kl (q.data.filter (fun c => !(c == ' '))) then
        acc ++ ((seed.lookup k).getD [])
      else acc) []

/-- The final dedup loop of search.py `expand_query`: normalise each item,
drop empties, duplicates, and — when the egg intent is present — the term
`"chicken"`. -/
def dedupeEgg (has_egg : Bool) (seen : List String) :
    List String → List String
  | [] => []
  | s :: rest =>
    let n := pyNorm s
    if n == "" || seen.contains n || (has_egg && n == "chicken") then
      dedupeEgg has_egg seen rest
    else n :: dedupeEgg has_egg (n :: seen) rest

/-- search.py `expand_query`: seed with the normalised query, append alias
expansions (longest alias key first), then intent-rule injections (chicken
terms only for a chicken intent without egg intent, egg terms for an egg
intent), then the noise-cleaned tokens of everything so far, and finally
dedup with egg-intent suppression of `"chicken"`. `seed` models the CSV
mapping of `_load_seed_alias_map` (empty when the file is absent). -/
def expand_query (seed : List (String × List String)) (query : String) :
    List String :=
  let q := pyNorm query
  if q == "" then []
  else
    let expanded := [q] ++ aliasExpansionTerms seed q ++
      (if hasChickenIntent q && !hasEggIntent q then
        ["chicken", "chicken breast", "chicken drumstick"] else []) ++
      (if hasEggIntent q then ["egg", "whole egg", "egg yolk", "egg white"]
       else [])
    dedupeEgg (hasEggIntent q) [] (expanded ++ _term_tokens expanded)

end Search

/-! ### models.py / energy.py / nrc.py -/

/-- models.py `ActivityLevel` (`Literal["low", "normal", "high"]`). -/
inductive ActivityLevel : Type
  | low
  | normal
  | high
  deriving DecidableEq

/-- models.py `DogProfile`. Python's `__post_init__` raises for
`weight_kg <= 0`; validity is the predicate `DogProfile.valid`. -/
structure DogProfile where
  weight_kg : ℝ
  neutered : Bool
  activity : ActivityLevel

/-- The constraint enforced by `DogProfile.__post_init__` (the activity enum
is enforced by the type). -/
def DogProfile.valid (p : DogProfile) : Prop := 0 < p.weight_kg

/-- energy.py `ACTIVITY_FACTORS`. -/
noncomputable def ACTIVITY_FACTORS : ActivityLevel → ℝ
  | .low => 1.4
  | .normal => 1.6
  | .high => 2.0

/-- energy.py `calculate_rer`: `70 * weight_kg ** 0.75` (float power
modelled as the real power). -/
noncomputable def calculate_rer (weight_kg : ℝ) : ℝ :=
  70 * weight_kg ^ (0.75 : ℝ)

/-- energy.py `calculate_mer`: RER times the activity factor. -/
noncomputable def calculate_mer (p : DogProfile) : ℝ :=
  calculate_rer p.weight_kg * ACTIVITY_FACTORS p.activity

/-- nrc.py `NutrientRequirement`, generic in the number type (instantiated
at `ℝ` by the requirement calculator and at `ℚ` on the optimizer side). -/
structure NutrientRequirement (α : Type) where
  nutrient_key : String
  min_per_day : α
  suggest_per_day : α
  max_per_day : Option α
  deriving DecidableEq

/-- nrc.py `NRC_PER_1000KCAL`. The decimal constants are exact rationals;
the requirement calculator casts them into `ℝ`. -/
def NRC_PER_1000KCAL : List (String × ℚ × ℚ × Option ℚ) :=
  [("protein_g", 45.0, 52.0, none),
   ("fat_g", 13.8, 16.0, none),
   ("ca_mg", 1250.0, 1500.0, some 6250.0),
   ("p_mg", 1000.0, 1200.0, some 4000.0),
   ("k_mg", 1500.0, 1700.0, none),
   ("na_mg", 200.0, 300.0, some 3200.0),
   ("mg_mg", 150.0, 170.0, none),
   ("fe_mg", 7.5, 10.0, some 75.0),
   ("zn_mg", 15.0, 20.0, some 300.0),
   ("cu_mg", 1.5, 1.8, some 30.0),
   ("mn_mg", 1.2, 1.6, some 24.0),
   ("se_ug", 90.0, 100.0, some 900.0),
   ("iodine_ug", 220.0, 300.0, some 2200.0),
   ("vit_a_ug", 379.0, 500.0, some 18750.0),
   ("vit_d_ug", 3.4, 5.0, some 80.0),
   ("vit_e_mg", 7.5, 10.0, none)]

/-- nrc.py `requirements_for_profile`: MER plus the reference table scaled
by `MER / 1000`. -/
noncomputable def requirements_for_profile (p : DogProfile) :
    ℝ × List (NutrientRequirement ℝ) :=
  let mer := calculate_mer p
  let scale := mer / 1000
  (mer, NRC_PER_1000KCAL.map (fun e =>
    ⟨e.1, (e.2.1 : ℝ) * scale, (e.2.2.1 : ℝ) * scale,
      e.2.2.2.map (fun m => (m : ℝ) * scale)⟩))

/-- nrc.py `nrc_status`, generic in the ordered number type. -/
def nrc_status {α : Type} [LinearOrder α] (actual minimum : α)
    (maximum : Option α) : String :=
  if actual < minimum then "LOW"
  else
    match maximum with
    | some m => if m < actual then "HIGH" else "OK"
    | none => "OK"

/-! ### optimizer.py (over `ℚ`) -/

namespace Optimizer

/-- optimizer.py `FormulaItem`. -/
structure FormulaItem where
  food_id : Nat
  food_name : String
  grams : ℚ
  deriving DecidableEq

/-- optimizer.py `NrcRow`. -/
structure NrcRow where
  nutrient_key : String
  minimum : ℚ
  suggest : ℚ
  maximum : Option ℚ
  actual : ℚ
  status : String
  deriving DecidableEq

/-- optimizer.py `FormulaResult`. -/
structure FormulaResult where
  feasible : Bool
  reason : String
  items : List FormulaItem
  nrc_rows : List NrcRow
  deriving DecidableEq

/-- Modelled from the spec: a food of the catalog together with its per-100g
nutrient vector. `optimize_recipe` reads the row by id from the `foods`
table and builds `{n.nutrient_key: n.amount_per_100g}` from
`get_food_nutrients`, a foods_db function whose definition is not under
`src/`; per §6 of the spec it is `nutrientVector(foodId) -> mapping
(nutrientKey -> amount)`, modelled as an association list with unique keys. -/
structure OptFood where
  id : Nat
  name : String
  nutrients : List (String × ℚ)
  deriving DecidableEq

/-- Python `math`: floor of a rational (denominator is positive, so floored
integer division of numerator by denominator). -/
def ratFloor (x : ℚ) : ℤ :=
  Int.fdiv x.num (x.den : ℤ)

/-- Round-half-to-even on a rational, the semantics of Python's `round`
applied at an exact midpoint (floats are modelled as exact rationals). -/
def pyRoundInt (x : ℚ) : ℤ :=
  let f := ratFloor x
  let frac := x - (f : ℚ)
  if frac < 1/2 then f
  else if 1/2 < frac then f + 1
  else if f % 2 == 0 then f else f + 1

/-- Python `round(g, 1)`. -/
def pyRound1 (x : ℚ) : ℚ :=
  (pyRoundInt (10 * x) : ℚ) / 10

/-- optimizer.py `_compute_totals`: `Σ amount_per_100g * grams / 100` per
nutrient key, accumulated dict-style. -/
def _compute_totals (grams : List ℚ) (nutrient_by_food : List (List (String × ℚ))) :
    List (String × ℚ) :=
  (grams.zip nutrient_by_food).foldl
    (fun totals gv =>
      gv.2.foldl
        (fun t kv => updAssoc t kv.1 (lookupD t kv.1 0 + kv.2 * gv.1 / 100))
        totals)
    []

/-- optimizer.py `_make_nrc_rows`: one diagnostic row per requirement, in
requirement order. -/
def _make_nrc_rows (reqs : List (NutrientRequirement ℚ))
    (totals : List (String × ℚ)) : List NrcRow :=
  reqs.map (fun req =>
    let actual := lookupD totals req.nutrient_key 0
    ⟨req.nutrient_key, req.min_per_day, req.suggest_per_day, req.max_per_day,
      actual, nrc_status actual req.min_per_day req.max_per_day⟩)

/-- The candidate filter at the top of `optimize_recipe`: drop unknown ids,
toxic names (toxicity.py's predicate) and foods without a positive kcal
density, keeping `food_ids` order. -/
def eligibleFoods (db : List OptFood) (food_ids : List Nat) : List OptFood :=
  food_ids.filterMap (fun fid =>
    match db.find? (fun f => f.id == fid) with
    | none => none
    | some f =>
      if Toxicity.is_toxic_food_name f.name then none
      else if lookupD f.nutrients "kcal" 0 ≤ 0 then none
      else some f)

/-- The seeding of the grams vector: `MER / n / (kcal_per_100g / 100)` for
each of the `n` eligible foods. -/
def initialGrams (mer : ℚ) (eligible : List OptFood) : List ℚ :=
  eligible.map (fun f =>
    mer / (eligible.length : ℚ) / (lookupD f.nutrients "kcal" 0 / 100))

/-- Python `max(range(n), key=...)`: index of the first maximal value.
`bi` is the best index so far, `i` the index of the list head, `bv` the best
value so far (`max` keeps the earlier index on ties). -/
def argmaxAux : Nat → Nat → ℚ → List ℚ → Nat
  | bi, _, _, [] => bi
  | bi, i, bv, v :: rest =>
    if bv < v then argmaxAux i (i + 1) v rest else argmaxAux bi (i + 1) bv rest

/-- Index of the first maximum of a list of densities. -/
def argmaxIdx : List ℚ → Nat
  | [] => 0
  | v :: rest => argmaxAux 0 1 v rest

/-- One adjustment of the grams vector for one failing nutrient row: pick
the food with the greatest density of that nutrient, then raise its grams by
`deficit / density * 100` (LOW) or lower them, clamped at 0, by
`excess / density * 100` (HIGH); a zero density is skipped. -/
def adjustForRow (nbf : List (List (String × ℚ))) (grams : List ℚ)
    (row : NrcRow) : List ℚ :=
  if row.status == "LOW" then
    let idx := argmaxIdx (nbf.map (fun nb => lookupD nb row.nutrient_key 0))
    let density := lookupD (nbf.getD idx []) row.nutrient_key 0
    if 0 < density then
      grams.set idx (grams.getD idx 0 + (row.minimum - row.actual) / density * 100)
    else grams
  else if row.status == "HIGH" then
    match row.maximum with
    | some m =>
      let idx := argmaxIdx (nbf.map (fun nb => lookupD nb row.nutrient_key 0))
      let density := lookupD (nbf.getD idx []) row.nutrient_key 0
      if 0 < density then
        grams.set idx (max 0 (grams.getD idx 0 - (row.actual - m) / density * 100))
      else grams
    | none => grams
  else grams

/-- The diagnostic rows computed from a grams vector. -/
def rowsOf (nbf : List (List (String × ℚ))) (reqs : List (NutrientRequirement ℚ))
    (grams : List ℚ) : List NrcRow :=
  _make_nrc_rows reqs (_compute_totals grams nbf)

/-- The `hard_fail` list of one iteration: rows whose status is not OK. -/
def hardFail (nbf : List (List (String × ℚ)))
    (reqs : List (NutrientRequirement ℚ)) (grams : List ℚ) : List NrcRow :=
  (rowsOf nbf reqs grams).filter (fun r => !(r.status == "OK"))

/-- One full iteration's mutation of the grams vector: adjust, in row order,
for every failing nutrient. -/
def adjStep (nbf : List (List (String × ℚ)))
    (reqs : List (NutrientRequirement ℚ)) (grams : List ℚ) : List ℚ :=
  (hardFail nbf reqs grams).foldl (adjustForRow nbf) grams

/-- The FEASIBLE item list: foods with grams above the 0.1 threshold
(tested on the unrounded value), grams rounded to one decimal. -/
def mkItems (foods : List (Nat × String)) (grams : List ℚ) : List FormulaItem :=
  ((foods.zip grams).filter (fun p => (1 : ℚ)/10 < p.2)).map
    (fun p => ⟨p.1.1, p.1.2, pyRound1 p.2⟩)

/-- The bounded iteration of `optimize_recipe` (`for _ in range(120)`),
with the post-loop INFEASIBLE result at fuel 0. -/
def optIter (foods : List (Nat × String)) (nbf : List (List (String × ℚ)))
    (reqs : List (NutrientRequirement ℚ)) : Nat → List ℚ → FormulaResult
  | 0, grams => ⟨false, "no feasible solution", [], rowsOf nbf reqs grams⟩
  | fuel + 1, grams =>
    if (hardFail nbf reqs grams).isEmpty then
      ⟨true, "ok", mkItems foods grams, rowsOf nbf reqs grams⟩
    else optIter foods nbf reqs fuel (adjStep nbf reqs grams)

/-- optimizer.py `optimize_recipe(conn, profile, food_ids)`. The database
connection is modelled by the joined catalog `db`; the profile is consumed
only through `requirements_for_profile(profile)` (its MER and requirement
list), so the embedding takes `mer` and `reqs` directly. -/
def optimize_recipe (db : List OptFood) (mer : ℚ)
    (reqs : List (NutrientRequirement ℚ)) (food_ids : List Nat) :
    FormulaResult :=
  let eligible := eligibleFoods db food_ids
  if eligible.isEmpty then ⟨false, "no safe foods available", [], []⟩
  else
    optIter (eligible.map (fun f => (f.id, f.name)))
      (eligible.map (·.nutrients)) reqs 120 (initialGrams mer eligible)

end Optimizer

/-! ### Helper lemmas -/

theorem mem_insertLe {α : Type} (le : α → α → Bool) (a x : α) (l : List α) :
    x ∈ insertLe le a l ↔ x = a ∨ x ∈ l := by
  induction l with
  | nil => simp [insertLe]
  | cons b l ih =>
    unfold insertLe
    split
    · simp [or_comm, or_left_comm]
    · simp only [List.mem_cons, ih]
      tauto

theorem mem_sortLe {α : Type} (le : α → α → Bool) (x : α) (l : List α) :
    x ∈ sortLe le l ↔ x ∈ l := by
  induction l with
  | nil => simp [sortLe]
  | cons a l ih => simp [sortLe, mem_insertLe, ih]

theorem pairwise_insertLe {α : Type} {le : α → α → Bool}
    (htot : ∀ a b, le a b = true ∨ le b a = true)
    (htr : ∀ a b c, le a b = true → le b c = true → le a c = true)
    (a : α) {l : List α} (h : l.Pairwise (fun x y => le x y = true)) :
    (insertLe le a l).Pairwise (fun x y => le x y = true) := by
  induction l with
  | nil => simp [insertLe]
  | cons b l ih =>
    rw [List.pairwise_cons] at h
    unfold insertLe
    split
    · rename_i hab
      refine List.Pairwise.cons (fun x hx => ?_) (List.Pairwise.cons h.1 h.2)
      rcases List.mem_cons.mp hx with rfl | hx
      · exact hab
      · exact htr a b x hab (h.1 x hx)
    · rename_i hab
      refine List.Pairwise.cons (fun x hx => ?_) (ih h.2)
      rcases (mem_insertLe le a x l).mp hx with h' | hx
      · rw [h']
        rcases htot a b with h' | h'
        · exact absurd h' hab
        · exact h'
      · exact h.1 x hx

theorem pairwise_sortLe {α : Type} {le : α → α → Bool}
    (htot : ∀ a b, le a b = true ∨ le b a = true)
    (htr : ∀ a b c, le a b = true → le b c = true → le a c = true)
    (l : List α) : (sortLe le l).Pairwise (fun x y => le x y = true) := by
  induction l with
  | nil => simp [sortLe]
  | cons a l ih => exact pairwise_insertLe htot htr a ih

theorem mem_updAssoc {κ β : Type} [BEq κ] (m : List (κ × β)) (k : κ) (v : β)
    (p : κ × β) (h : p ∈ updAssoc m k v) : p = (k, v) ∨ p ∈ m := by
  induction m with
  | nil => simpa [updAssoc] using h
  | cons q m ih =>
    unfold updAssoc at h
    split at h
    · rcases List.mem_cons.mp h with rfl | h
      · exact Or.inl rfl
      · exact Or.inr (List.mem_cons_of_mem _ h)
    · rcases List.mem_cons.mp h with rfl | h
      · exact Or.inr (List.mem_cons_self _ _)
      · rcases ih h with h' | h'
        · exact Or.inl h'
        · exact Or.inr (List.mem_cons_of_mem _ h')

/-- Membership in a fold that, at each element, either keeps the accumulator
or performs one `updAssoc` with a pair satisfying `R`. -/
theorem mem_foldl_updAssoc {α β : Type} {g : List (Nat × β) → α → List (Nat × β)}
    {R : α → Nat × β → Prop}
    (hg : ∀ m a p, p ∈ g m a → p ∈ m ∨ R a p) :
    ∀ (l : List α) (m0 : List (Nat × β)) (p : Nat × β),
      p ∈ l.foldl g m0 → p ∈ m0 ∨ ∃ a ∈ l, R a p := by
  intro l
  induction l with
  | nil => intro m0 p h; exact Or.inl h
  | cons a l ih =>
    intro m0 p h
    rcases ih (g m0 a) p h with h' | ⟨b, hb, hR⟩
    · rcases hg m0 a p h' with h'' | h''
      · exact Or.inl h''
      · exact Or.inr ⟨a, List.mem_cons_self _ _, h''⟩
    · exact Or.inr ⟨b, List.mem_cons_of_mem _ hb, hR⟩

/-- An invariant preserved by each successful step of `exceptFold` holds for
the final state of a successful fold. -/
theorem exceptFold_invariant {ε σ α : Type} {f : σ → α → Except ε σ}
    {P : σ → Prop} (hf : ∀ s a s', P s → f s a = .ok s' → P s') :
    ∀ (l : List α) (s s' : σ), P s → exceptFold f s l = .ok s' → P s' := by
  intro l
  induction l with
  | nil =>
    intro s s' hP h
    cases h
    exact hP
  | cons a l ih =>
    intro s s' hP h
    unfold exceptFold at h
    cases hfa : f s a with
    | error e => rw [hfa] at h; cases h
    | ok s1 => rw [hfa] at h; exact ih s1 s' (hf s a s1 hP hfa) h

namespace FoodsDb

theorem not_toxic_of_mem_rows_to_records (rows : List FoodRow)
    (require_kcal : Bool) (r : FoodRecord)
    (h : r ∈ _rows_to_records rows require_kcal) :
    is_toxic_food_name r.name = false := by
  induction rows with
  | nil => cases h
  | cons row rest ih =>
    unfold _rows_to_records at h
    split at h
    · exact ih h
    · split at h
      · exact ih h
      · rcases List.mem_cons.mp h with rfl | h
        · rename_i htox _
          exact Bool.not_eq_true _ ▸ eq_false_of_ne_true htox
        · exact ih h

theorem search_foods_ok_not_toxic (foods : List FoodRow) (query : String)
    (limit : Int) (require_kcal : Bool) (out : List FoodRecord)
    (h : search_foods foods query limit require_kcal = .ok out) :
    ∀ r ∈ out, is_toxic_food_name r.name = false := by
  intro r hr
  unfold search_foods at h
  split_ifs at h <;> cases h
  · cases hr
  · cases hr
  · exact not_toxic_of_mem_rows_to_records _ _ _ hr
  · exact not_toxic_of_mem_rows_to_records _ _ _ hr

theorem search_foods_by_alias_not_toxic (foods : List FoodRow)
    (aliases : List AliasRow) (query lang : String) (limit : Int)
    (require_kcal : Bool) :
    ∀ r ∈ search_foods_by_alias foods aliases query lang limit require_kcal,
      is_toxic_food_name r.name = false := by
  intro r hr
  rw [search_foods_by_alias] at hr
  simp only [] at hr
  split at hr
  · cases hr
  · exact not_toxic_of_mem_rows_to_records _ _ _ hr

/-- Every entry of a successful `cnMerged` carries a record that survived
`_rows_to_records`, hence is non-toxic by foods_db's own predicate. -/
theorem cnMerged_not_toxic (foods : List FoodRow) (aliases : List AliasRow)
    (seed : List (String × List String)) (query : String) (limit : Int)
    (require_kcal : Bool) (merged : List (Nat × CnEntry))
    (h : cnMerged foods aliases seed query limit require_kcal = .ok merged) :
    ∀ p ∈ merged, is_toxic_food_name p.2.2.2.name = false := by
  have hstep : ∀ (m : List (Nat × CnEntry)) (c : String)
      (m' : List (Nat × CnEntry)),
      (∀ p ∈ m, is_toxic_food_name p.2.2.2.name = false) →
      cnStep foods limit require_kcal m c = .ok m' →
      ∀ p ∈ m', is_toxic_food_name p.2.2.2.name = false := by
    intro m c m' hm hs p hp
    unfold cnStep at hs
    cases hrec : search_foods foods c limit require_kcal with
    | error e => rw [hrec] at hs; cases hs
    | ok recs =>
      rw [hrec] at hs
      cases hs
      have hmem := mem_foldl_updAssoc
        (R := fun (r : FoodRecord) (p : Nat × CnEntry) => p.2.2.2 = r)
        (g := fun m r =>
          if cnShouldUpd (-(max 1 (c.length : Int))) (m.lookup r.id) then
            updAssoc m r.id ((1 : Int), -(max 1 (c.length : Int)), r)
          else m)
        (fun m0 a p hp' => by
          dsimp only at hp'
          split at hp'
          · rcases mem_updAssoc _ _ _ _ hp' with h' | h'
            · rw [h']
              exact Or.inr rfl
            · exact Or.inl h'
          · exact Or.inl hp')
        recs m p hp
      rcases hmem with h' | ⟨rec, hrec', hR⟩
      · exact hm p h'
      · rw [hR]
        exact search_foods_ok_not_toxic foods c limit require_kcal recs hrec
          rec hrec'
  have hinit : ∀ p ∈ ((search_foods_by_alias foods aliases query "zh" limit
      require_kcal).foldl
        (fun m r => updAssoc m r.id ((0 : Int), (10000 : Int), r)) []),
      is_toxic_food_name p.2.2.2.name = false := by
    intro p hp
    have hmem := mem_foldl_updAssoc
      (R := fun (r : FoodRecord) (p : Nat × CnEntry) => p.2.2.2 = r)
      (g := fun m r => updAssoc m r.id ((0 : Int), (10000 : Int), r))
      (fun m0 a p hp' => by
        rcases mem_updAssoc _ _ _ _ hp' with rfl | h'
        · exact Or.inr rfl
        · exact Or.inl h')
      _ [] p hp
    rcases hmem with h' | ⟨rec, hrec', hR⟩
    · cases h'
    · rw [hR]
      exact search_foods_by_alias_not_toxic foods aliases query "zh" limit
        require_kcal rec hrec'
  exact exceptFold_invariant hstep (expand_query seed query) _ merged hinit h

end FoodsDb

namespace Optimizer

theorem pyRoundInt_nonneg {x : ℚ} (hx : 0 ≤ x) : 0 ≤ pyRoundInt x := by
  unfold pyRoundInt ratFloor
  have hf : 0 ≤ Int.fdiv x.num (x.den : ℤ) :=
    Int.fdiv_nonneg (Rat.num_nonneg.mpr hx) (by exact_mod_cast Nat.zero_le _)
  simp only []
  split_ifs <;> omega

theorem pyRound1_nonneg {x : ℚ} (hx : 0 ≤ x) : 0 ≤ pyRound1 x := by
  unfold pyRound1
  have h := pyRoundInt_nonneg (x := 10 * x) (by positivity)
  have h' : (0 : ℚ) ≤ (pyRoundInt (10 * x) : ℚ) := by exact_mod_cast h
  positivity

theorem mkItems_grams_nonneg (foods : List (Nat × String)) (grams : List ℚ) :
    ∀ it ∈ mkItems foods grams, 0 ≤ it.grams := by
  intro it hit
  unfold mkItems at hit
  rcases List.mem_map.mp hit with ⟨p, hp, rfl⟩
  have h : (1 : ℚ)/10 < p.2 := of_decide_eq_true (List.mem_filter.mp hp).2
  exact pyRound1_nonneg (le_of_lt ((by norm_num : (0 : ℚ) < 1/10).trans h))

theorem rows_ok_of_hardFail_empty (nbf : List (List (String × ℚ)))
    (reqs : List (NutrientRequirement ℚ)) (grams : List ℚ)
    (h : (hardFail nbf reqs grams).isEmpty = true) :
    ∀ row ∈ rowsOf nbf reqs grams, row.status = "OK" := by
  intro row hrow
  rw [List.isEmpty_iff] at h
  unfold hardFail at h
  have h' := List.filter_eq_nil_iff.mp h row hrow
  simpa using h'

theorem optIter_items_nonneg_rows_ok (foods : List (Nat × String))
    (nbf : List (List (String × ℚ))) (reqs : List (NutrientRequirement ℚ)) :
    ∀ (fuel : Nat) (grams : List ℚ),
      (∀ it ∈ (optIter foods nbf reqs fuel grams).items, 0 ≤ it.grams) ∧
      ((optIter foods nbf reqs fuel grams).feasible = true →
        ∀ row ∈ (optIter foods nbf reqs fuel grams).nrc_rows,
          row.status = "OK") := by
  intro fuel
  induction fuel with
  | zero =>
    intro grams
    refine ⟨fun it hit => ?_, fun hfeas => ?_⟩
    · cases hit
    · cases hfeas
  | succ fuel ih =>
    intro grams
    unfold optIter
    split
    · rename_i hempty
      exact ⟨mkItems_grams_nonneg foods grams,
        fun _ => rows_ok_of_hardFail_empty nbf reqs grams hempty⟩
    · exact ih (adjStep nbf reqs grams)

theorem optIter_infeasible (foods : List (Nat × String))
    (nbf : List (List (String × ℚ))) (reqs : List (NutrientRequirement ℚ)) :
    ∀ (fuel : Nat) (grams : List ℚ),
      (optIter foods nbf reqs fuel grams).feasible = false →
      optIter foods nbf reqs fuel grams =
        ⟨false, "no feasible solution", [],
          rowsOf nbf reqs ((adjStep nbf reqs)^[fuel] grams)⟩ := by
  intro fuel
  induction fuel with
  | zero =>
    intro grams _
    rfl
  | succ fuel ih =>
    intro grams hfeas
    unfold optIter at hfeas ⊢
    split at hfeas
    · cases hfeas
    · rename_i h
      rw [if_neg h, Function.iterate_succ_apply]
      exact ih (adjStep nbf reqs grams) hfeas

theorem adjustForRow_length (nbf : List (List (String × ℚ))) (grams : List ℚ)
    (row : NrcRow) : (adjustForRow nbf grams row).length = grams.length := by
  unfold adjustForRow
  simp only []
  split
  · split
    · exact List.length_set ..
    · rfl
  · split
    · split
      · split
        · exact List.length_set ..
        · rfl
      · rfl
    · rfl

theorem foldl_adjustForRow_length (nbf : List (List (String × ℚ))) :
    ∀ (rows : List NrcRow) (grams : List ℚ),
      (rows.foldl (adjustForRow nbf) grams).length = grams.length := by
  intro rows
  induction rows with
  | nil => intro grams; rfl
  | cons row rows ih =>
    intro grams
    rw [List.foldl_cons, ih, adjustForRow_length]

theorem adjStep_length (nbf : List (List (String × ℚ)))
    (reqs : List (NutrientRequirement ℚ)) (grams : List ℚ) :
    (adjStep nbf reqs grams).length = grams.length :=
  foldl_adjustForRow_length nbf _ grams

theorem iterate_adjStep_length (nbf : List (List (String × ℚ)))
    (reqs : List (NutrientRequirement ℚ)) :
    ∀ (n : Nat) (grams : List ℚ),
      ((adjStep nbf reqs)^[n] grams).length = grams.length := by
  intro n
  induction n with
  | zero => intro grams; rfl
  | succ n ih =>
    intro grams
    rw [Function.iterate_succ_apply, ih, adjStep_length]

theorem optIter_feasible_shape (foods : List (Nat × String))
    (nbf : List (List (String × ℚ))) (reqs : List (NutrientRequirement ℚ)) :
    ∀ (fuel : Nat) (grams : List ℚ),
      (optIter foods nbf reqs fuel grams).feasible = true →
      ∃ g : List ℚ, g.length = grams.length ∧
        optIter foods nbf reqs fuel grams =
          ⟨true, "ok", mkItems foods g, rowsOf nbf reqs g⟩ := by
  intro fuel
  induction fuel with
  | zero =>
    intro grams hfeas
    cases hfeas
  | succ fuel ih =>
    intro grams hfeas
    unfold optIter at hfeas ⊢
    split at hfeas
    · exact ⟨grams, rfl, by rename_i h; rw [if_pos h]⟩
    · rename_i h
      rcases ih (adjStep nbf reqs grams) hfeas with ⟨g, hlen, heq⟩
      exact ⟨g, hlen.trans (adjStep_length nbf reqs grams), by rw [if_neg h, heq]⟩

theorem initialGrams_length (mer : ℚ) (eligible : List OptFood) :
    (initialGrams mer eligible).length = eligible.length := by
  simp [initialGrams]

theorem rowsOf_keys (nbf : List (List (String × ℚ)))
    (reqs : List (NutrientRequirement ℚ)) (grams : List ℚ) :
    (rowsOf nbf reqs grams).map (·.nutrient_key) =
      reqs.map (·.nutrient_key) := by
  simp [rowsOf, _make_nrc_rows, List.map_map]

end Optimizer

theorem mem_pySlice {α : Type} {x : α} {l : List α} {k : Int}
    (h : x ∈ pySlice l k) : x ∈ l := by
  unfold pySlice at h
  split at h
  · exact (List.take_sublist _ _).mem h
  · exact (List.take_sublist _ _).mem h

theorem pySlice_length_le {α : Type} (l : List α) (k : Int) (hk : 0 ≤ k) :
    (pySlice l k).length ≤ k.toNat := by
  unfold pySlice
  rw [if_pos hk, List.length_take]
  exact min_le_left _ _

namespace FoodsDb

theorem cnLe_total (query : String) (a b : CnEntry) :
    cnLe query a b = true ∨ cnLe query b a = true := by
  unfold cnLe
  rcases le_total (cnKey query a) (cnKey query b) with h | h
  · exact Or.inl (decide_eq_true h)
  · exact Or.inr (decide_eq_true h)

theorem cnLe_trans (query : String) (a b c : CnEntry)
    (h1 : cnLe query a b = true) (h2 : cnLe query b c = true) :
    cnLe query a c = true := by
  unfold cnLe at h1 h2 ⊢
  exact decide_eq_true (le_trans (of_decide_eq_true h1) (of_decide_eq_true h2))

theorem cnRanked_pairwise (foods : List FoodRow) (aliases : List AliasRow)
    (seed : List (String × List String)) (query : String) (limit : Int)
    (require_kcal : Bool) :
    (cnRanked foods aliases seed query limit require_kcal).Pairwise
      (fun a b => cnLe query a b = true) := by
  unfold cnRanked
  split
  · exact List.Pairwise.nil
  · exact pairwise_sortLe (fun a b => cnLe_total query a b)
      (fun a b c => cnLe_trans query a b c) _

end FoodsDb

namespace Search

theorem chicken_not_mem_dedupeEgg (seen : List String) (l : List String) :
    "chicken" ∉ dedupeEgg true seen l := by
  induction l generalizing seen with
  | nil => simp [dedupeEgg]
  | cons s rest ih =>
    unfold dedupeEgg
    simp only []
    split
    · exact ih seen
    · rename_i hcond
      intro h
      rcases List.mem_cons.mp h with h' | h'
      · apply hcond
        rw [← h']
        simp
      · exact ih _ h'

end Search

theorem nrc_table_bounds : ∀ e ∈ NRC_PER_1000KCAL,
    e.2.1 ≤ e.2.2.1 ∧ e.2.2.2.all (fun m => decide (e.2.2.1 ≤ m)) = true := by
  with_unfolding_all decide

theorem ten_rpow_bounds :
    (5.623 : ℝ) ≤ (10 : ℝ) ^ (0.75 : ℝ) ∧ (10 : ℝ) ^ (0.75 : ℝ) ≤ 5.624 := by
  have h10 : (0 : ℝ) ≤ 10 := by norm_num
  have hx : (0 : ℝ) ≤ (10 : ℝ) ^ (0.75 : ℝ) := Real.rpow_nonneg h10 _
  have hpow : ((10 : ℝ) ^ (0.75 : ℝ)) ^ (4 : ℕ) = 1000 := by
    rw [← Real.rpow_natCast ((10 : ℝ) ^ (0.75 : ℝ)) 4, ← Real.rpow_mul h10]
    rw [show (0.75 : ℝ) * (4 : ℕ) = ((3 : ℕ) : ℝ) by norm_num,
      Real.rpow_natCast]
    norm_num
  constructor
  · have h1 : (5.623 : ℝ) ^ (4 : ℕ) ≤ ((10 : ℝ) ^ (0.75 : ℝ)) ^ (4 : ℕ) := by
      rw [hpow]
      norm_num
    exact le_of_pow_le_pow_left₀ (by norm_num) hx h1
  · have h2 : ((10 : ℝ) ^ (0.75 : ℝ)) ^ (4 : ℕ) ≤ (5.624 : ℝ) ^ (4 : ℕ) := by
      rw [hpow]
      norm_num
    exact le_of_pow_le_pow_left₀ (by norm_num) (by norm_num) h2

theorem calculate_mer_pos (p : DogProfile) (hp : p.valid) :
    0 < calculate_mer p := by
  have h1 : 0 < calculate_rer p.weight_kg := by
    unfold calculate_rer
    exact mul_pos (by norm_num) (Real.rpow_pos_of_pos hp _)
  have h2 : 0 < ACTIVITY_FACTORS p.activity := by
    cases hact : p.activity <;> simp [ACTIVITY_FACTORS] <;> norm_num
  exact mul_pos h1 h2

/-! ### The claims -/

section Claims

open FoodsDb Optimizer

/-- C1, counterexample: the claim's toxic-keyword set is required to cover
"garlic", yet a food named "Garlic, raw" (whose lowercased display name
contains the keyword `"garlic"`) is returned by `search_foods` — the
search-side filter uses foods_db's own 8-keyword `_TOXIC_KEYWORDS`, which
has no garlic/cocoa/raisin/alcohol/macadamia entries. -/
theorem C1_counterexample :
    "garlic" ∈ specClaimedToxicMinimum ∧
    containsSub "garlic".data (pyLowerData "Garlic, raw") = true ∧
    search_foods [⟨1, "Garlic, raw", some 149, "fdc", none⟩] "garlic" 20 true =
      .ok [⟨1, "Garlic, raw", some 149, "fdc", none⟩] := by
  refine ⟨by decide, by decide, by decide⟩

/-- C1, amended: for every query, limit and catalog state, a food whose
display name contains a keyword of foods_db's `_TOXIC_KEYWORDS` (onion,
chocolate, grape, xylitol and their Chinese forms — not the full toxicity.py
set) never appears in the output of `search_foods` or `search_foods_cn`. -/
theorem C1_search_filters_toxic_names :
    (∀ (foods : List FoodRow) (query : String) (limit : Int)
        (require_kcal : Bool) (out : List FoodRecord),
      search_foods foods query limit require_kcal = .ok out →
      ∀ r ∈ out, is_toxic_food_name r.name = false) ∧
    (∀ (foods : List FoodRow) (aliases : List AliasRow)
        (seed : List (String × List String)) (query : String) (limit : Int)
        (require_kcal : Bool) (out : List FoodRecord),
      search_foods_cn foods aliases seed query limit require_kcal = .ok out →
      ∀ r ∈ out, is_toxic_food_name r.name = false) := by
  constructor
  · exact search_foods_ok_not_toxic
  · intro foods aliases seed query limit require_kcal out h r hr
    unfold search_foods_cn at h
    cases hm : cnMerged foods aliases seed query limit require_kcal with
    | error e => rw [hm] at h; cases h
    | ok merged =>
      rw [hm] at h
      cases h
      rcases List.mem_map.mp hr with ⟨e, he, rfl⟩
      have he' := mem_pySlice he
      have he'' := (mem_sortLe _ _ _).mp he'
      rcases List.mem_map.mp he'' with ⟨p, hp, rfl⟩
      exact cnMerged_not_toxic foods aliases seed query limit require_kcal
        merged hm p hp

/-- C1, witness: the amended theorem applied to a concrete two-row catalog
where the conjunctive query succeeds. -/
theorem C1_witness :
    search_foods
      [⟨1, "Chicken, broilers, breast, meat only", some 165, "fdc", none⟩,
       ⟨2, "Chicken, drumstick", some 161, "fdc", none⟩] "chicken" 20 true =
      .ok [⟨1, "Chicken, broilers, breast, meat only", some 165, "fdc", none⟩,
           ⟨2, "Chicken, drumstick", some 161, "fdc", none⟩] ∧
    ∀ r ∈ [(⟨1, "Chicken, broilers, breast, meat only", some 165, "fdc", none⟩ :
            FoodRecord),
           ⟨2, "Chicken, drumstick", some 161, "fdc", none⟩],
      is_toxic_food_name r.name = false :=
  ⟨by decide,
   C1_search_filters_toxic_names.1
     [⟨1, "Chicken, broilers, breast, meat only", some 165, "fdc", none⟩,
      ⟨2, "Chicken, drumstick", some 161, "fdc", none⟩] "chicken" 20 true
     [⟨1, "Chicken, broilers, breast, meat only", some 165, "fdc", none⟩,
      ⟨2, "Chicken, drumstick", some 161, "fdc", none⟩] (by decide)⟩

/-- C2: every `FormulaItem.grams` of any `optimize_recipe` output is
non-negative, and on a feasible result every `NrcRow` has status OK. -/
theorem C2_optimizer_invariants (db : List OptFood) (mer : ℚ)
    (reqs : List (NutrientRequirement ℚ)) (food_ids : List Nat) :
    (∀ it ∈ (optimize_recipe db mer reqs food_ids).items, 0 ≤ it.grams) ∧
    ((optimize_recipe db mer reqs food_ids).feasible = true →
      ∀ row ∈ (optimize_recipe db mer reqs food_ids).nrc_rows,
        row.status = "OK") := by
  unfold optimize_recipe
  simp only []
  split
  · refine ⟨fun it hit => ?_, fun hfeas => ?_⟩
    · cases hit
    · cases hfeas
  · exact optIter_items_nonneg_rows_ok _ _ reqs 120 _

/-- C2, witness: a one-food catalog that is feasible at the first
iteration. -/
theorem C2_witness :
    (optimize_recipe [⟨1, "wfood", [("kcal", 100)]⟩] 100
      [⟨"kcal", 1, 1, none⟩] [1]).feasible = true ∧
    (∀ it ∈ (optimize_recipe [⟨1, "wfood", [("kcal", 100)]⟩] 100
        [⟨"kcal", 1, 1, none⟩] [1]).items, 0 ≤ it.grams) ∧
    (∀ row ∈ (optimize_recipe [⟨1, "wfood", [("kcal", 100)]⟩] 100
        [⟨"kcal", 1, 1, none⟩] [1]).nrc_rows, row.status = "OK") :=
  ⟨by with_unfolding_all decide,
   (C2_optimizer_invariants _ _ _ _).1,
   (C2_optimizer_invariants _ _ _ _).2 (by with_unfolding_all decide)⟩

/-- C3: `optimize_recipe` has exactly the two failure shapes — an empty
eligible set yields `("no safe foods available", [], [])`, and an exhausted
iteration cap yields `("no feasible solution", [])` with the diagnostic rows
computed, one per requirement in order, from the grams vector produced by
the 120 adjustment passes. -/
theorem C3_failure_shapes (db : List OptFood) (mer : ℚ)
    (reqs : List (NutrientRequirement ℚ)) (food_ids : List Nat) :
    (eligibleFoods db food_ids = [] →
      optimize_recipe db mer reqs food_ids =
        ⟨false, "no safe foods available", [], []⟩) ∧
    (eligibleFoods db food_ids ≠ [] →
      (optimize_recipe db mer reqs food_ids).feasible = false →
      optimize_recipe db mer reqs food_ids =
        ⟨false, "no feasible solution", [],
          rowsOf ((eligibleFoods db food_ids).map (·.nutrients)) reqs
            ((adjStep ((eligibleFoods db food_ids).map (·.nutrients)) reqs)^[120]
              (initialGrams mer (eligibleFoods db food_ids)))⟩ ∧
      (optimize_recipe db mer reqs food_ids).nrc_rows.map (·.nutrient_key) =
        reqs.map (·.nutrient_key)) := by
  constructor
  · intro h
    unfold optimize_recipe
    simp only []
    rw [if_pos (List.isEmpty_iff.mpr h)]
  · intro hne hfeas
    unfold optimize_recipe at hfeas ⊢
    simp only [] at hfeas ⊢
    rw [if_neg (fun hc => hne (List.isEmpty_iff.mp hc))] at hfeas ⊢
    refine ⟨optIter_infeasible _ _ reqs 120 _ hfeas, ?_⟩
    rw [optIter_infeasible _ _ reqs 120 _ hfeas]
    exact rowsOf_keys _ reqs _

/-- C3, witness: a requirement no candidate food can supply drives the
optimizer through all 120 iterations into the "no feasible solution"
shape. -/
theorem C3_witness :
    eligibleFoods [⟨1, "wfood", [("kcal", 100)]⟩] [1] ≠ [] ∧
    (optimize_recipe [⟨1, "wfood", [("kcal", 100)]⟩] 100
      [⟨"zn_mg", 5, 6, none⟩] [1]).feasible = false ∧
    (optimize_recipe [⟨1, "wfood", [("kcal", 100)]⟩] 100
        [⟨"zn_mg", 5, 6, none⟩] [1] =
      ⟨false, "no feasible solution", [],
        rowsOf ((eligibleFoods [⟨1, "wfood", [("kcal", 100)]⟩] [1]).map
            (·.nutrients)) [⟨"zn_mg", 5, 6, none⟩]
          ((adjStep ((eligibleFoods [⟨1, "wfood", [("kcal", 100)]⟩] [1]).map
              (·.nutrients)) [⟨"zn_mg", 5, 6, none⟩])^[120]
            (initialGrams 100 (eligibleFoods [⟨1, "wfood", [("kcal", 100)]⟩] [1])))⟩ ∧
      (optimize_recipe [⟨1, "wfood", [("kcal", 100)]⟩] 100
          [⟨"zn_mg", 5, 6, none⟩] [1]).nrc_rows.map (·.nutrient_key) =
        [⟨"zn_mg", 5, 6, none⟩].map
          (NutrientRequirement.nutrient_key (α := ℚ))) :=
  ⟨by decide, by with_unfolding_all decide,
   (C3_failure_shapes _ _ _ _).2 (by decide) (by with_unfolding_all decide)⟩

/-- C4, counterexample: a feasible run whose two foods each end at exactly
0.1 g; `round(0.1, 1) = 0.1` is not below the 0.1 threshold, so the claim
says they are kept, but the code filters on the unrounded `g > 0.1` and
drops both (empty item list). -/
theorem C4_counterexample :
    initialGrams (1/5)
      (eligibleFoods [⟨1, "food a", [("kcal", 100)]⟩,
        ⟨2, "food b", [("kcal", 100)]⟩] [1, 2]) = [1/10, 1/10] ∧
    pyRound1 (1/10) = 1/10 ∧
    ¬(pyRound1 (1/10) < 1/10) ∧
    optimize_recipe [⟨1, "food a", [("kcal", 100)]⟩,
        ⟨2, "food b", [("kcal", 100)]⟩] (1/5) [⟨"kcal", 0, 0, none⟩] [1, 2] =
      ⟨true, "ok", [], [⟨"kcal", 0, 0, none, 1/5, "OK"⟩]⟩ := by
  refine ⟨by with_unfolding_all decide, by with_unfolding_all decide,
    by with_unfolding_all decide, by with_unfolding_all decide⟩

/-- C4, amended: on a feasible outcome there is a final grams vector (one
entry per eligible food) such that the returned items are exactly the foods
whose unrounded grams strictly exceed 0.1 g, in candidate order, with grams
rounded to one decimal; foods at or below 0.1 g unrounded are dropped even
when their rounded grams equal 0.1. -/
theorem C4_feasible_item_filter (db : List OptFood) (mer : ℚ)
    (reqs : List (NutrientRequirement ℚ)) (food_ids : List Nat)
    (h : (optimize_recipe db mer reqs food_ids).feasible = true) :
    ∃ g : List ℚ,
      g.length = (eligibleFoods db food_ids).length ∧
      (optimize_recipe db mer reqs food_ids).items =
        (((eligibleFoods db food_ids).map (fun f => (f.id, f.name))).zip g
          |>.filter (fun p => (1 : ℚ)/10 < p.2)).map
          (fun p => ⟨p.1.1, p.1.2, pyRound1 p.2⟩) := by
  unfold optimize_recipe at h ⊢
  simp only [] at h ⊢
  split at h
  · cases h
  · rename_i hne
    rcases optIter_feasible_shape _ _ reqs 120 _ h with ⟨g, hlen, heq⟩
    rw [if_neg hne, heq]
    exact ⟨g, hlen.trans (initialGrams_length mer _), rfl⟩

/-- C4, witness: the amended theorem at the feasible one-food instance. -/
theorem C4_witness :
    (optimize_recipe [⟨1, "wfood", [("kcal", 100)]⟩] 100
      [⟨"kcal", 1, 1, none⟩] [1]).feasible = true ∧
    ∃ g : List ℚ,
      g.length = (eligibleFoods [⟨1, "wfood", [("kcal", 100)]⟩] [1]).length ∧
      (optimize_recipe [⟨1, "wfood", [("kcal", 100)]⟩] 100
        [⟨"kcal", 1, 1, none⟩] [1]).items =
        (((eligibleFoods [⟨1, "wfood", [("kcal", 100)]⟩] [1]).map
            (fun f => (f.id, f.name))).zip g
          |>.filter (fun p => (1 : ℚ)/10 < p.2)).map
          (fun p => ⟨p.1.1, p.1.2, pyRound1 p.2⟩) :=
  ⟨by with_unfolding_all decide,
   C4_feasible_item_filter _ _ _ _ (by with_unfolding_all decide)⟩

/-- C5: with a non-empty token list, `search_foods` returns the conjunctive
(all-tokens) records whenever that phase is non-empty and the disjunctive
(any-token) records otherwise; concretely, "chicken breast" returns only the
breast item of the two-chicken catalog while "chicken" returns both. -/
theorem C5_conjunctive_then_fallback :
    (∀ (foods : List FoodRow) (query : String) (limit : Int)
        (require_kcal : Bool), 0 < limit →
      _tokenize_query (pyNorm query) ≠ [] →
      (conjunctiveRecords foods query limit require_kcal ≠ [] →
        search_foods foods query limit require_kcal =
          .ok (conjunctiveRecords foods query limit require_kcal)) ∧
      (conjunctiveRecords foods query limit require_kcal = [] →
        search_foods foods query limit require_kcal =
          .ok (disjunctiveRecords foods query limit require_kcal))) ∧
    search_foods
      [⟨1, "Chicken, broilers, breast, meat only", some 165, "fdc", none⟩,
       ⟨2, "Chicken, drumstick", some 161, "fdc", none⟩]
      "chicken breast" 20 true =
      .ok [⟨1, "Chicken, broilers, breast, meat only", some 165, "fdc", none⟩] ∧
    search_foods
      [⟨1, "Chicken, broilers, breast, meat only", some 165, "fdc", none⟩,
       ⟨2, "Chicken, drumstick", some 161, "fdc", none⟩] "chicken" 20 true =
      .ok [⟨1, "Chicken, broilers, breast, meat only", some 165, "fdc", none⟩,
           ⟨2, "Chicken, drumstick", some 161, "fdc", none⟩] := by
  refine ⟨?_, by decide, by decide⟩
  intro foods query limit require_kcal hlim htok
  have hq : ¬((pyNorm query == "") = true) := by
    intro hq
    apply htok
    rw [eq_of_beq hq]
    rfl
  have hne : ¬(limit ≤ 0) := by omega
  constructor
  · intro hconj
    unfold search_foods
    rw [if_neg hne, if_neg hq,
      if_neg (fun hc => htok (List.isEmpty_iff.mp hc)),
      if_pos (by simpa using hconj)]
  · intro hconj
    unfold search_foods
    rw [if_neg hne, if_neg hq,
      if_neg (fun hc => htok (List.isEmpty_iff.mp hc)),
      if_neg (by simpa using hconj)]

/-- C5, witness: the general clause applied to the concrete catalog and
query "chicken breast". -/
theorem C5_witness :
    (0 : Int) < 20 ∧
    _tokenize_query (pyNorm "chicken breast") ≠ [] ∧
    (conjunctiveRecords
        [⟨1, "Chicken, broilers, breast, meat only", some 165, "fdc", none⟩,
         ⟨2, "Chicken, drumstick", some 161, "fdc", none⟩]
        "chicken breast" 20 true ≠ [] →
      search_foods
        [⟨1, "Chicken, broilers, breast, meat only", some 165, "fdc", none⟩,
         ⟨2, "Chicken, drumstick", some 161, "fdc", none⟩]
        "chicken breast" 20 true =
        .ok (conjunctiveRecords
          [⟨1, "Chicken, broilers, breast, meat only", some 165, "fdc", none⟩,
           ⟨2, "Chicken, drumstick", some 161, "fdc", none⟩]
          "chicken breast" 20 true)) :=
  ⟨by decide, by decide,
   (C5_conjunctive_then_fallback.1
     [⟨1, "Chicken, broilers, breast, meat only", some 165, "fdc", none⟩,
      ⟨2, "Chicken, drumstick", some 161, "fdc", none⟩]
     "chicken breast" 20 true (by decide) (by decide)).1⟩

/-- C6, counterexample: two foods reached through direct alias hits for the
query "苹果", with alias weights 100 (food "b food") and 50 (food "a food")
and no intent tokens; the claim requires the weight-100 food first, but
`search_foods_cn` orders tier 0 by case-insensitive food name and returns
the weight-50 food first. -/
theorem C6_counterexample :
    (⟨1, 1, "zh", "苹果", 100⟩ : AliasRow).weight = 100 ∧
    (⟨2, 2, "zh", "苹果梨", 50⟩ : AliasRow).weight = 50 ∧
    search_foods_by_alias [⟨1, "b food", some 100, "fdc", none⟩,
        ⟨2, "a food", some 100, "fdc", none⟩]
      [⟨1, 1, "zh", "苹果", 100⟩, ⟨2, 2, "zh", "苹果梨", 50⟩] "苹果" "zh" 20 true =
      [⟨1, "b food", some 100, "fdc", none⟩,
       ⟨2, "a food", some 100, "fdc", none⟩] ∧
    search_foods_cn [⟨1, "b food", some 100, "fdc", none⟩,
        ⟨2, "a food", some 100, "fdc", none⟩]
      [⟨1, 1, "zh", "苹果", 100⟩, ⟨2, 2, "zh", "苹果梨", 50⟩] [] "苹果" 20 true =
      .ok [⟨2, "a food", some 100, "fdc", none⟩,
           ⟨1, "b food", some 100, "fdc", none⟩] := by
  refine ⟨rfl, rfl, by decide, by decide⟩

/-- C6, amended: every successful `search_foods_cn` output is the
tier/intent/name-sorted ranked list truncated to `limit` (so it has at most
`limit` entries and every tier-0 entry precedes every tier-1 entry); within
tier 0 the order is by intent scores then case-insensitive food name — the
alias weight only determines which alias rows are fetched, not the final
order. -/
theorem C6_cn_order_and_limit (foods : List FoodRow) (aliases : List AliasRow)
    (seed : List (String × List String)) (query : String) (limit : Int)
    (require_kcal : Bool) (out : List FoodRecord)
    (h : search_foods_cn foods aliases seed query limit require_kcal = .ok out) :
    (0 ≤ limit → out.length ≤ limit.toNat) ∧
    out = (pySlice (cnRanked foods aliases seed query limit require_kcal)
      limit).map (·.2.2) ∧
    (cnRanked foods aliases seed query limit require_kcal).Pairwise
      (fun a b => cnLe query a b = true) := by
  unfold search_foods_cn at h
  cases hm : cnMerged foods aliases seed query limit require_kcal with
  | error e => rw [hm] at h; cases h
  | ok merged =>
    rw [hm] at h
    cases h
    have hc : cnRanked foods aliases seed query limit require_kcal =
        sortLe (cnLe query) (merged.map (·.2)) := by
      unfold cnRanked
      rw [hm]
    refine ⟨fun hk => ?_, ?_, cnRanked_pairwise foods aliases seed query limit
      require_kcal⟩
    · rw [List.length_map]
      exact pySlice_length_le _ _ hk
    · rw [hc]

/-- C6, witness: the amended theorem at the concrete alias catalog. -/
theorem C6_witness :
    search_foods_cn [⟨1, "b food", some 100, "fdc", none⟩,
        ⟨2, "a food", some 100, "fdc", none⟩]
      [⟨1, 1, "zh", "苹果", 100⟩, ⟨2, 2, "zh", "苹果梨", 50⟩] [] "苹果" 20 true =
      .ok [⟨2, "a food", some 100, "fdc", none⟩,
           ⟨1, "b food", some 100, "fdc", none⟩] ∧
    ((0 : Int) ≤ 20 →
      ([(⟨2, "a food", some 100, "fdc", none⟩ : FoodRecord),
        ⟨1, "b food", some 100, "fdc", none⟩]).length ≤ (20 : Int).toNat) :=
  ⟨by decide,
   (C6_cn_order_and_limit [⟨1, "b food", some 100, "fdc", none⟩,
       ⟨2, "a food", some 100, "fdc", none⟩]
     [⟨1, 1, "zh", "苹果", 100⟩, ⟨2, 2, "zh", "苹果梨", 50⟩] [] "苹果" 20 true
     [⟨2, "a food", some 100, "fdc", none⟩,
      ⟨1, "b food", some 100, "fdc", none⟩] (by decide)).1⟩

/-- C7, counterexample: foods_db.py's `expand_query` has no egg-intent
suppression — the query "鸡胸肉鸡蛋" contains the egg token "鸡蛋", yet the
"鸡胸肉" rule fires first and the expansion list contains the generic term
"chicken". -/
theorem C7_counterexample :
    eggTokenPresent "鸡胸肉鸡蛋" = true ∧
    "chicken" ∈ FoodsDb.expand_query [] "鸡胸肉鸡蛋" := by
  refine ⟨by decide, by decide⟩

/-- C7, amended: search.py's `expand_query` always removes the generic
poultry term "chicken" when an egg-intent token is detected in the
normalised query, whatever the alias seed mapping injected; foods_db.py's
`expand_query` (used by `search_foods_cn`) has no such suppression and can
emit "chicken" on an egg query (see the counterexample). -/
theorem C7_egg_intent_suppresses_chicken
    (seed : List (String × List String)) (query : String)
    (h : Search.hasEggIntent (pyNorm query) = true) :
    "chicken" ∉ Search.expand_query seed query := by
  unfold Search.expand_query
  simp only []
  split
  · exact List.not_mem_nil _
  · rw [h]
    exact Search.chicken_not_mem_dedupeEgg [] _

/-- C7, witness: the suppression theorem at the plain egg query "鸡蛋" with
an alias seed that itself injects "chicken". -/
theorem C7_witness :
    Search.hasEggIntent (pyNorm "鸡蛋") = true ∧
    "chicken" ∉ Search.expand_query [("鸡蛋", ["egg", "chicken"])] "鸡蛋" :=
  ⟨by decide,
   C7_egg_intent_suppresses_chicken [("鸡蛋", ["egg", "chicken"])] "鸡蛋"
     (by decide)⟩

/-- C8: `calculate_rer` is `70 * w ** 0.75`, `calculate_mer` multiplies it
by the activity factor (1.4 / 1.6 / 2.0), and the four reference values at
10 kg are within the stated 1e-3 relative tolerance. -/
theorem C8_energy_formulas :
    (∀ w : ℝ, calculate_rer w = 70 * w ^ (0.75 : ℝ)) ∧
    (∀ p : DogProfile,
      calculate_mer p = calculate_rer p.weight_kg * ACTIVITY_FACTORS p.activity) ∧
    ACTIVITY_FACTORS .low = 1.4 ∧
    ACTIVITY_FACTORS .normal = 1.6 ∧
    ACTIVITY_FACTORS .high = 2.0 ∧
    |calculate_rer 10 - 393.64| ≤ 1e-3 * 393.64 ∧
    |calculate_mer ⟨10, true, .normal⟩ - 629.82| ≤ 1e-3 * 629.82 ∧
    |calculate_mer ⟨10, true, .low⟩ - 551.09| ≤ 1e-3 * 551.09 ∧
    |calculate_mer ⟨10, true, .high⟩ - 787.28| ≤ 1e-3 * 787.28 := by
  obtain ⟨hlo, hhi⟩ := ten_rpow_bounds
  refine ⟨fun w => rfl, fun p => rfl, rfl, rfl, rfl, ?_, ?_, ?_, ?_⟩ <;>
    · simp only [calculate_mer, calculate_rer, ACTIVITY_FACTORS]
      rw [abs_le]
      constructor <;> nlinarith [hlo, hhi]

/-- C9: for every valid profile, every produced `NutrientRequirement` has
`min_per_day ≤ suggest_per_day`, and `suggest_per_day ≤ max_per_day`
whenever the maximum is defined. -/
theorem C9_requirement_bounds (p : DogProfile) (hp : p.valid) :
    ∀ r ∈ (requirements_for_profile p).2,
      r.min_per_day ≤ r.suggest_per_day ∧
      ∀ m, r.max_per_day = some m → r.suggest_per_day ≤ m := by
  intro r hr
  have hscale : (0 : ℝ) ≤ calculate_mer p / 1000 := by
    have := calculate_mer_pos p hp
    positivity
  simp only [requirements_for_profile] at hr
  rcases List.mem_map.mp hr with ⟨e, he, rfl⟩
  obtain ⟨hmin, hmax⟩ := nrc_table_bounds e he
  constructor
  · exact mul_le_mul_of_nonneg_right (by exact_mod_cast hmin) hscale
  · intro m hm
    cases hopt : e.2.2.2 with
    | none =>
      rw [hopt] at hm
      cases hm
    | some m0 =>
      rw [hopt] at hm
      have hm' : ((m0 : ℝ)) * (calculate_mer p / 1000) = m :=
        Option.some.inj hm
      rw [hopt] at hmax
      have hle : e.2.2.1 ≤ m0 := by simpa using hmax
      rw [← hm']
      exact mul_le_mul_of_nonneg_right (by exact_mod_cast hle) hscale

/-- C9, witness: the bounds at the 10 kg / normal-activity profile. -/
theorem C9_witness :
    (⟨10, true, .normal⟩ : DogProfile).valid ∧
    ∀ r ∈ (requirements_for_profile ⟨10, true, .normal⟩).2,
      r.min_per_day ≤ r.suggest_per_day ∧
      ∀ m, r.max_per_day = some m → r.suggest_per_day ≤ m :=
  ⟨by norm_num [DogProfile.valid],
   C9_requirement_bounds ⟨10, true, .normal⟩ (by norm_num [DogProfile.valid])⟩

/-- C10: `search_foods` raises `ValueError("limit must be > 0")` for every
non-positive limit, before the empty-query short-circuit, so no query —
including the empty one — returns a list under a non-positive limit. -/
theorem C10_limit_check_first (foods : List FoodRow) (query : String)
    (limit : Int) (require_kcal : Bool) (h : limit ≤ 0) :
    search_foods foods query limit require_kcal =
      .error "limit must be > 0" := by
  unfold search_foods
  rw [if_pos h]

/-- C10, witness: the empty query with limit 0 still raises. -/
theorem C10_witness :
    (0 : Int) ≤ 0 ∧
    search_foods [] "" 0 true = .error "limit must be > 0" :=
  ⟨le_refl 0, C10_limit_check_first [] "" 0 true (by decide)⟩

end Claims

end DogNutrition
